import Mathlib

/-!
Shallow embedding of `src/visual-learning-backend/venv/app.py`, the single
source file of the visual-learning-teacher repository: a Flask backend that
accepts a base64-encoded image, decodes and validates it, forwards it to an
external generative model, and relays the model's text.

External library calls (Python's `base64.b64decode`, PIL's `Image.open`, the
Gemini `model.generate_content` call, Flask's `request.get_json`) are
abstracted into an environment `Env`: each is a function whose `Except.error`
value models the call raising a Python exception carrying that message
(`str(e)`).  The repository's own logic — the data-URL prefix stripping, the
format whitelist, the resize guard, and the whole request handler with its
exception-to-HTTP-status mapping — is translated line by line from app.py.
Strings handled by the repository's own string code are modelled as `List Char`.
-/

namespace VisualLearning

/-- PIL image as the repository observes it: `image.format` (e.g. "PNG"),
`image.size[0]` (width) and `image.size[1]` (height).  Python integers are
unbounded, hence `ℤ`. -/
structure PILImage where
  format : String
  width : ℤ
  height : ℤ
deriving DecidableEq

/-- A parsed JSON object body, restricted to string values (the only shape the
claims exercise): the result of `request.get_json()` when it is a dict. -/
abbrev Dict := List (String × List Char)

/-- The external calls the handler makes.  `Except.error e` models the Python
call raising an exception with `str(e) = e`. -/
structure Env where
  /-- `base64.b64decode(s)`: returns raw bytes or raises `binascii.Error`. -/
  b64decode : List Char → Except String (List Nat)
  /-- `PIL.Image.open(io.BytesIO(data))`: parses bytes into an image (with its
  reported format and dimensions) or raises (e.g. `UnidentifiedImageError`). -/
  imageOpen : List Nat → Except String PILImage
  /-- `model.generate_content([prompt, image]).text`: `.ok t` models a response
  whose `.text` is `t` (possibly empty); `.error e` models the call raising. -/
  modelCall : PILImage → Except String String

/-- One incoming POST request to `/api/process-image` as the handler observes
it: `request.is_json`, and the outcome of `request.get_json()` (`.error e`
models `get_json` raising, e.g. `BadRequest` on a malformed body; `.ok none`
models a body parsing to JSON `null`). -/
structure Request where
  is_json : Bool
  get_json : Except String (Option Dict)

/-- The JSON envelope plus status code produced by the handler:
`jsonify({...}), status`.  `success` records whether the body carries
`success: true`; `solution` and `error` record those body fields. -/
structure HttpResp where
  status : Nat
  success : Bool
  solution : Option String
  error : Option String
deriving DecidableEq

/-- Decidable equality of fallible results, used to evaluate the embedding on
concrete inputs. -/
instance {e a : Type} [DecidableEq e] [DecidableEq a] : DecidableEq (Except e a) := fun x y =>
  match x, y with
  | .ok u, .ok v =>
    if h : u = v then .isTrue (congrArg Except.ok h)
    else .isFalse (fun hc => h (Except.ok.inj hc))
  | .error u, .error v =>
    if h : u = v then .isTrue (congrArg Except.error h)
    else .isFalse (fun hc => h (Except.error.inj hc))
  | .ok _, .error _ => .isFalse (fun hc => Except.noConfusion hc)
  | .error _, .ok _ => .isFalse (fun hc => Except.noConfusion hc)

/-- app.py line 37: `MAX_IMAGE_SIZE = (1920, 1080)`. -/
def MAX_IMAGE_SIZE : ℤ × ℤ := (1920, 1080)

/-- The literal `'base64,'` used by lines 139–140 of app.py. -/
def sepB64 : List Char := ['b', 'a', 's', 'e', '6', '4', ',']

/-- First occurrence of the (non-empty) separator `sep` in `s`:
`some (before, after)` splits `s` around the leftmost occurrence, scanning
left to right as Python's `str.split` does; `none` when `sep` does not occur.
This is the occurrence structure underlying `s.split(sep)`. -/
def splitFirst (sep : List Char) : List Char → Option (List Char × List Char)
  | [] => none
  | c :: cs =>
    if List.isPrefixOf sep (c :: cs) then some ([], List.drop sep.length (c :: cs))
    else
      match splitFirst sep cs with
      | some (a, r) => some (c :: a, r)
      | none => none

/-- Python's `'base64,' in s` (line 139). -/
def containsSep (s : List Char) : Bool :=
  (splitFirst sepB64 s).isSome

/-- Python's `s.split(sep)[1]`, defined when `sep` occurs in `s`: the text
strictly between the first occurrence of `sep` and the second occurrence
(or the end of the string when there is no second occurrence).  This is
exactly element 1 of Python's split list. -/
def pySplitSecond (sep s : List Char) : Option (List Char) :=
  match splitFirst sep s with
  | none => none
  | some (_, rest) =>
    match splitFirst sep rest with
    | none => some rest
    | some (a2, _) => some a2

/-- Lines 138–140 of app.py:
`if 'base64,' in base64_string: base64_string = base64_string.split('base64,')[1]`.
`pySplitSecond` returns `some` exactly when the guard `'base64,' in s` holds. -/
def stripDataUrl (s : List Char) : List Char :=
  match pySplitSecond sepB64 s with
  | some t => t
  | none => s

/-- Modelled from the Pillow library (external code, not part of this
repository): the helper `round_aspect` inside `Image.thumbnail`, which is
`max(min(math.floor(number), math.ceil(number), key=key), 1)` — the floor or
the ceiling of the exact value, whichever the key prefers (floor on ties,
as Python's `min` keeps the first argument), clamped to at least 1.
Real arithmetic is modelled exactly over `ℚ` in place of Python floats. -/
def round_aspect (number : ℚ) (key : ℤ → ℚ) : ℤ :=
  max (if key ⌊number⌋ ≤ key ⌈number⌉ then ⌊number⌋ else ⌈number⌉) 1

/-- Modelled from the Pillow library (external code, not part of this
repository): the dimension computation of `Image.thumbnail((maxW, maxH), ...)`
as called on line 152 of app.py — if the image already fits, nothing changes;
otherwise the target box is shrunk along one axis to (approximately) the
image's aspect ratio `width / height` before resizing. -/
def thumbnailSize (maxW maxH width height : ℤ) : ℤ × ℤ :=
  if maxW ≥ width ∧ maxH ≥ height then (width, height)
  else if (maxW : ℚ) / (maxH : ℚ) ≥ (width : ℚ) / (height : ℚ) then
    (round_aspect ((maxH : ℚ) * ((width : ℚ) / (height : ℚ)))
      (fun n => |(width : ℚ) / (height : ℚ) - (n : ℚ) / (maxH : ℚ)|), maxH)
  else
    (maxW, round_aspect ((maxW : ℚ) / ((width : ℚ) / (height : ℚ)))
      (fun n => if n = 0 then 0 else |(width : ℚ) / (height : ℚ) - (maxW : ℚ) / (n : ℚ)|))

/-- The allowed-format whitelist of line 147: `['jpeg', 'png', 'gif']`. -/
def allowedFormats : List String := ["jpeg", "png", "gif"]

/-- Python's `str.lower()` as applied to `image.format` on line 147: PIL format
names are ASCII, so lowering each character is exact. -/
def pyLower (s : String) : String := String.mk (s.data.map Char.toLower)

/-- Lines 142–154 of app.py, after the prefix strip: decode the base64 text,
open the bytes as an image, reject formats outside the whitelist, and resize
when either dimension exceeds `MAX_IMAGE_SIZE`.  Every exception inside the
`try` block of `process_base64_image` (lines 155–157) is caught and re-raised
as `ImageProcessingError("Failed to process image: " + str(e))`; an
`Except.error` result therefore models exactly an `ImageProcessingError`
carrying the given message. -/
def processPayload (env : Env) (payload : List Char) : Except String PILImage :=
  match env.b64decode payload with
  | .error e => .error ("Failed to process image: " ++ e)
  | .ok image_data =>
    match env.imageOpen image_data with
    | .error e => .error ("Failed to process image: " ++ e)
    | .ok image =>
      if pyLower image.format ∉ allowedFormats then
        .error "Failed to process image: Unsupported image format"
      else if MAX_IMAGE_SIZE.1 < image.width ∨ MAX_IMAGE_SIZE.2 < image.height then
        .ok ⟨image.format,
          (thumbnailSize MAX_IMAGE_SIZE.1 MAX_IMAGE_SIZE.2 image.width image.height).1,
          (thumbnailSize MAX_IMAGE_SIZE.1 MAX_IMAGE_SIZE.2 image.width image.height).2⟩
      else
        .ok image

/-- `process_base64_image` (lines 135–157 of app.py): strip a data-URL prefix
when `'base64,'` occurs, then decode, validate and resize. -/
def process_base64_image (env : Env) (base64_string : List Char) : Except String PILImage :=
  processPayload env (stripDataUrl base64_string)

/-- Python truthiness test `not data` on the `get_json()` result (line 178):
`None` and the empty dict are falsy. -/
def notData : Option Dict → Bool
  | none => true
  | some l => l.isEmpty

/-- Dictionary membership/lookup for `'image' not in data` / `data['image']`. -/
def dictGet (d : Dict) (k : String) : Option (List Char) :=
  List.lookup k d

/-- The handler `process_image` (lines 170–229 of app.py).  Control flow:
415 when the content type is not JSON; a `get_json` exception propagates to
the outer `except Exception` (500, fixed generic body); 400 when the body is
falsy or has no `image` key; an `ImageProcessingError` from
`process_base64_image` gives 400 with the error's message; inside the inner
`try`, a raised `AIProcessingError("No response generated")` (empty model
text) or any other exception is re-raised as
`AIProcessingError("AI processing failed: " + str(e))` and reported by the
outer `except AIProcessingError` as 500 with that message; otherwise 200 with
`success: true` and the model text. -/
def process_image (env : Env) (req : Request) : HttpResp :=
  if ¬ req.is_json then
    ⟨415, false, none, some "Content-Type must be application/json"⟩
  else
    match req.get_json with
    | .error _ => ⟨500, false, none, some "Internal server error"⟩
    | .ok data =>
      if notData data then
        ⟨400, false, none, some "No image data provided"⟩
      else
        match data with
        | none => ⟨400, false, none, some "No image data provided"⟩
        | some d =>
          match dictGet d "image" with
          | none => ⟨400, false, none, some "No image data provided"⟩
          | some s =>
            match process_base64_image env s with
            | .error e => ⟨400, false, none, some e⟩
            | .ok image =>
              match env.modelCall image with
              | .error e => ⟨500, false, none, some ("AI processing failed: " ++ e)⟩
              | .ok text =>
                if text.isEmpty then
                  ⟨500, false, none, some "AI processing failed: No response generated"⟩
                else
                  ⟨200, true, some text, none⟩

/-- Modelled from the spec: the rate limiter is `flask_limiter` library code,
not present in the repository; per the spec (§4.4) it enforces "a configured
quota (e.g. \"100 requests per day\") keyed by client address, rejecting
excess requests with HTTP 429 before any image processing occurs".  `history`
lists the `(address, day)` of previously admitted requests; a request is
allowed when fewer than `limit` earlier requests share its address and day. -/
def rateLimitAllows (limit : Nat) (history : List (String × Nat))
    (addr : String) (day : Nat) : Bool :=
  (history.filter (fun p => p.1 == addr && p.2 == day)).length < limit

/-- The default `RATE_LIMIT = '100 per day'` of line 29 of app.py. -/
def RATE_LIMIT_COUNT : Nat := 100

/-- The app-level dispatch for `/api/process-image`: the `@limiter.limit`
decorator (line 168) runs before the handler body; a rejected request never
reaches `process_image` and is answered by the 429 error handler
`ratelimit_error` (lines 236–238): `jsonify({'error': 'Rate limit exceeded'}), 429`. -/
def app_handle (env : Env) (history : List (String × Nat))
    (addr : String) (day : Nat) (req : Request) : HttpResp :=
  if rateLimitAllows RATE_LIMIT_COUNT history addr day then
    process_image env req
  else
    ⟨429, false, none, some "Rate limit exceeded"⟩

/-- A concrete test environment over a tiny universe, shaped like the real
libraries: the base64 text `"QUJD"` decodes to the bytes 65, 66, 67 (ASCII
`ABC`), the empty text decodes to no bytes (as `base64.b64decode('')` does),
anything else raises; only the designated bytes parse as an image, namely
`img`; the model call behaves as `call`. -/
def mkEnv (img : PILImage) (call : Except String String) : Env :=
  ⟨fun payload =>
      if payload = "QUJD".toList then .ok [65, 66, 67]
      else if payload = [] then .ok []
      else .error "Invalid base64-encoded string",
    fun bs =>
      if bs = [65, 66, 67] then .ok img
      else .error "cannot identify image file",
    fun _ => call⟩

/-- Environment whose designated image is a small 100×50 PNG and whose model
call answers with a fixed non-empty text. -/
def envPng100 : Env := mkEnv ⟨"PNG", 100, 50⟩ (.ok "The image shows a triangle.")

/-- Environment whose model call succeeds but returns empty text. -/
def envEmptyText : Env := mkEnv ⟨"PNG", 100, 50⟩ (.ok "")

/-- Environment whose designated image has an unsupported format. -/
def envBmp : Env := mkEnv ⟨"BMP", 10, 10⟩ (.ok "The image shows a triangle.")

/-- Environment whose designated image is a 1921×1080 PNG (just too wide). -/
def envWide : Env := mkEnv ⟨"PNG", 1921, 1080⟩ (.ok "The image shows a triangle.")

/-- Environment whose designated image is a 3000×2000 PNG (the spec's resize
scenario). -/
def envBig : Env := mkEnv ⟨"PNG", 3000, 2000⟩ (.ok "The image shows a triangle.")

/-- Environment whose model call raises a generic (non-custom) exception. -/
def envModelRaises : Env :=
  mkEnv ⟨"PNG", 100, 50⟩ (.error "HTTPConnectionPool: read timed out")

/-- The data-URL header of the spec's scenario. -/
def dataUrlPng : List Char := "data:image/png;base64,".toList

/-! Helper lemmas about the occurrence structure of `'base64,'` in strings. -/

/-- A prefix longer than `a` of `a ++ b` starts with `a` and continues into `b`. -/
theorem prefix_split {s a b : List Char} (h : s <+: a ++ b) (hlen : a.length < s.length) :
    a <+: s ∧ s.drop a.length <+: b := by
  obtain ⟨t, ht⟩ := h
  constructor
  · have h1 : a = List.take a.length (s ++ t) := by
      rw [ht]; exact (List.take_left a b).symm
    rw [List.take_append_of_le_length (by omega)] at h1
    rw [h1]; exact List.take_prefix _ _
  · have h2 : b = List.drop a.length (s ++ t) := by
      rw [ht]; exact (List.drop_left a b).symm
    rw [List.drop_append_of_le_length (by omega)] at h2
    exact ⟨t, h2.symm⟩

/-- A prefix of `a ++ b` no longer than `a` is a prefix of `a`. -/
theorem prefix_of_append_left {s a b : List Char} (h : s <+: a ++ b)
    (hlen : s.length ≤ a.length) : s <+: a := by
  obtain ⟨t, ht⟩ := h
  rw [List.prefix_iff_eq_take]
  have h1 : s = List.take s.length (s ++ t) := (List.take_left s t).symm
  rw [ht] at h1
  rw [List.take_append_of_le_length hlen] at h1
  exact h1

/-- The separator `'base64,'` has no nonempty proper border: none of its proper
suffixes is one of its prefixes.  Consequently occurrences cannot straddle. -/
theorem sep_border_free : ∀ k < 7, 1 ≤ k → ¬ (List.drop k sepB64 <+: sepB64) := by decide

theorem splitFirst_eq_none_cons {sep : List Char} {c : Char} {cs : List Char}
    (h : splitFirst sep (c :: cs) = none) :
    List.isPrefixOf sep (c :: cs) = false ∧ splitFirst sep cs = none := by
  by_cases hp : List.isPrefixOf sep (c :: cs) = true
  · rw [splitFirst, if_pos hp] at h
    exact Option.noConfusion h
  · have hp' : List.isPrefixOf sep (c :: cs) = false := by
      rwa [Bool.not_eq_true] at hp
    refine ⟨hp', ?_⟩
    cases hcs : splitFirst sep cs with
    | none => rfl
    | some p =>
      rw [splitFirst, if_neg hp, hcs] at h
      obtain ⟨a, r⟩ := p
      exact Option.noConfusion h

/-- Leftmost-occurrence structure: when `'base64,'` does not occur in `a`, the
first occurrence of `'base64,'` in `a ++ 'base64,' ++ b` is the explicit one,
so the split around it is `(a, b)`. -/
theorem splitFirst_append_sep (b : List Char) :
    ∀ a : List Char, splitFirst sepB64 a = none →
      splitFirst sepB64 (a ++ sepB64 ++ b) = some (a, b) := by
  intro a
  induction a with
  | nil =>
    intro _
    show splitFirst sepB64 ('b' :: (['a', 's', 'e', '6', '4', ','] ++ b)) = some ([], b)
    rw [splitFirst, if_pos]
    · rfl
    · show List.isPrefixOf sepB64 ('b' :: (['a', 's', 'e', '6', '4', ','] ++ b)) = true
      exact List.isPrefixOf_iff_prefix.mpr (List.prefix_append sepB64 b)
  | cons c a' ih =>
    intro hnone
    obtain ⟨hp, hrest⟩ := splitFirst_eq_none_cons hnone
    have key : ¬ (List.isPrefixOf sepB64 (c :: (a' ++ sepB64 ++ b)) = true) := by
      intro hcon
      have h0 : sepB64 <+: c :: (a' ++ sepB64 ++ b) := List.isPrefixOf_iff_prefix.mp hcon
      have hpre : sepB64 <+: (c :: a') ++ (sepB64 ++ b) := by
        simpa [List.append_assoc] using h0
      by_cases hl : sepB64.length ≤ (c :: a').length
      · have h2 := prefix_of_append_left hpre hl
        rw [← List.isPrefixOf_iff_prefix] at h2
        rw [h2] at hp
        exact Bool.noConfusion hp
      · push_neg at hl
        obtain ⟨-, hdrop⟩ := prefix_split hpre hl
        have hdrop2 : sepB64.drop (c :: a').length <+: sepB64 :=
          prefix_of_append_left hdrop (by simp [List.length_drop])
        exact sep_border_free _ (by simpa [sepB64] using hl) (by simp) hdrop2
    show splitFirst sepB64 (c :: (a' ++ sepB64 ++ b)) = some (c :: a', b)
    rw [splitFirst, if_neg key, ih hrest]

/-- A string without `'base64,'` is left untouched by the prefix-stripping step. -/
theorem stripDataUrl_of_no_sep {s : List Char} (h : splitFirst sepB64 s = none) :
    stripDataUrl s = s := by
  unfold stripDataUrl pySplitSecond
  rw [h]

/-- One occurrence: the strip step keeps exactly the text after it. -/
theorem stripDataUrl_single {a m : List Char} (ha : splitFirst sepB64 a = none)
    (hm : splitFirst sepB64 m = none) :
    stripDataUrl (a ++ sepB64 ++ m) = m := by
  unfold stripDataUrl pySplitSecond
  rw [splitFirst_append_sep m a ha]
  simp [hm]

/-- Two occurrences: the strip step keeps exactly the text between them,
whatever follows the second occurrence. -/
theorem stripDataUrl_double {a m : List Char} (c : List Char)
    (ha : splitFirst sepB64 a = none) (hm : splitFirst sepB64 m = none) :
    stripDataUrl (a ++ sepB64 ++ m ++ sepB64 ++ c) = m := by
  unfold stripDataUrl pySplitSecond
  have hshape : a ++ sepB64 ++ m ++ sepB64 ++ c = a ++ sepB64 ++ (m ++ sepB64 ++ c) := by
    simp [List.append_assoc]
  rw [hshape, splitFirst_append_sep (m ++ sepB64 ++ c) a ha]
  have h2 : splitFirst sepB64 (m ++ sepB64 ++ c) = some (m, c) :=
    splitFirst_append_sep c m hm
  simp only [h2]

/-! Helper lemmas about the thumbnail dimension computation. -/

theorem round_aspect_cases (v : ℚ) (key : ℤ → ℚ) :
    round_aspect v key = max ⌊v⌋ 1 ∨ round_aspect v key = max ⌈v⌉ 1 := by
  unfold round_aspect
  split
  · exact Or.inl rfl
  · exact Or.inr rfl

theorem round_aspect_le {v : ℚ} {B : ℤ} (key : ℤ → ℚ) (hB : 1 ≤ B) (hv : v ≤ (B : ℚ)) :
    round_aspect v key ≤ B := by
  have h1 : ⌊v⌋ ≤ B := by
    have := Int.floor_le_floor hv
    rwa [Int.floor_intCast] at this
  have h2 : ⌈v⌉ ≤ B := Int.ceil_le.mpr hv
  unfold round_aspect
  split <;> omega

theorem one_le_round_aspect (v : ℚ) (key : ℤ → ℚ) : 1 ≤ round_aspect v key := by
  unfold round_aspect
  split <;> omega

/-- Thumbnail dimension computation on an oversized image: the result fits in
the 1920×1080 box with both dimensions at least 1, one dimension equals the
corresponding maximum, and the other is the floor or the ceiling of the exact
aspect-preserving value (clamped to at least 1). -/
theorem thumbnailSize_spec {w h : ℤ} (hw : 1 ≤ w) (hh : 1 ≤ h)
    (hbig : 1920 < w ∨ 1080 < h) :
    ∃ x y : ℤ, thumbnailSize 1920 1080 w h = (x, y) ∧
      (1 ≤ x ∧ x ≤ 1920 ∧ 1 ≤ y ∧ y ≤ 1080) ∧
      ((y = 1080 ∧ (x = max ⌊(1080 : ℚ) * w / h⌋ 1 ∨ x = max ⌈(1080 : ℚ) * w / h⌉ 1)) ∨
        (x = 1920 ∧ (y = max ⌊(1920 : ℚ) * h / w⌋ 1 ∨ y = max ⌈(1920 : ℚ) * h / w⌉ 1))) := by
  have hwq : (0 : ℚ) < (w : ℚ) := by exact_mod_cast (by omega : (0 : ℤ) < w)
  have hhq : (0 : ℚ) < (h : ℚ) := by exact_mod_cast (by omega : (0 : ℤ) < h)
  have hnotfit : ¬ ((1920 : ℤ) ≥ w ∧ (1080 : ℤ) ≥ h) := by omega
  have c1920 : (((1920 : ℤ) : ℚ)) = (1920 : ℚ) := by norm_num
  have c1080 : (((1080 : ℤ) : ℚ)) = (1080 : ℚ) := by norm_num
  have hB1920 : (1 : ℤ) ≤ 1920 := by norm_num
  have hB1080 : (1 : ℤ) ≤ 1080 := by norm_num
  by_cases hc : (((1920 : ℤ) : ℚ)) / (((1080 : ℤ) : ℚ)) ≥ (w : ℚ) / (h : ℚ)
  · have heqT : thumbnailSize 1920 1080 w h =
        (round_aspect ((((1080 : ℤ) : ℚ)) * ((w : ℚ) / (h : ℚ)))
          (fun n => |(w : ℚ) / (h : ℚ) - (n : ℚ) / (((1080 : ℤ) : ℚ))|), 1080) := by
      unfold thumbnailSize
      rw [if_neg hnotfit, if_pos hc]
    have hq : (w : ℚ) / (h : ℚ) ≤ (1920 : ℚ) / (1080 : ℚ) := by
      rw [c1920, c1080] at hc; exact hc
    have hv : (((1080 : ℤ) : ℚ)) * ((w : ℚ) / (h : ℚ)) ≤ (((1920 : ℤ) : ℚ)) := by
      rw [c1920, c1080]
      calc (1080 : ℚ) * ((w : ℚ) / (h : ℚ))
          ≤ (1080 : ℚ) * ((1920 : ℚ) / (1080 : ℚ)) :=
            mul_le_mul_of_nonneg_left hq (by norm_num)
        _ = (1920 : ℚ) := by norm_num
    have hveq : (((1080 : ℤ) : ℚ)) * ((w : ℚ) / (h : ℚ)) = (1080 : ℚ) * w / h := by
      rw [c1080, mul_div_assoc]
    have hle : round_aspect ((((1080 : ℤ) : ℚ)) * ((w : ℚ) / (h : ℚ)))
        (fun n => |(w : ℚ) / (h : ℚ) - (n : ℚ) / (((1080 : ℤ) : ℚ))|) ≤ 1920 :=
      round_aspect_le _ hB1920 hv
    refine ⟨_, 1080, heqT, ⟨one_le_round_aspect _ _, hle, hB1080, le_refl _⟩,
      Or.inl ⟨rfl, ?_⟩⟩
    rw [← hveq]
    exact round_aspect_cases _ _
  · have heqT : thumbnailSize 1920 1080 w h =
        (1920, round_aspect ((((1920 : ℤ) : ℚ)) / ((w : ℚ) / (h : ℚ)))
          (fun n => if n = 0 then 0
            else |(w : ℚ) / (h : ℚ) - (((1920 : ℤ) : ℚ)) / (n : ℚ)|)) := by
      unfold thumbnailSize
      rw [if_neg hnotfit, if_neg hc]
    push_neg at hc
    rw [c1920, c1080] at hc
    have hcross : (1920 : ℚ) * (h : ℚ) < (w : ℚ) * 1080 :=
      (div_lt_div_iff₀ (by norm_num) hhq).mp hc
    have hveq : (((1920 : ℤ) : ℚ)) / ((w : ℚ) / (h : ℚ)) = (1920 : ℚ) * h / w := by
      rw [c1920, div_div_eq_mul_div]
    have hv : (((1920 : ℤ) : ℚ)) / ((w : ℚ) / (h : ℚ)) ≤ (((1080 : ℤ) : ℚ)) := by
      rw [hveq, c1080, div_le_iff₀ hwq]
      nlinarith
    have hle : round_aspect ((((1920 : ℤ) : ℚ)) / ((w : ℚ) / (h : ℚ)))
        (fun n => if n = 0 then 0
          else |(w : ℚ) / (h : ℚ) - (((1920 : ℤ) : ℚ)) / (n : ℚ)|) ≤ 1080 :=
      round_aspect_le _ hB1080 hv
    refine ⟨1920, _, heqT, ⟨hB1920, le_refl _, one_le_round_aspect _ _, hle⟩,
      Or.inr ⟨rfl, ?_⟩⟩
    rw [← hveq]
    exact round_aspect_cases _ _

/-- Concrete evaluation of the thumbnail computation on a 1921×1080 image:
the exact aspect-preserving height 1920·1080/1921 ≈ 1079.44 is rounded down
(the floor is closer to the original aspect ratio), giving 1920×1079. -/
theorem thumbnailSize_at_1921 : thumbnailSize 1920 1080 1921 1080 = (1920, 1079) := by
  unfold thumbnailSize
  rw [if_neg (by omega), if_neg (by norm_num)]
  refine Prod.ext rfl ?_
  show round_aspect ((((1920 : ℤ) : ℚ)) / (((1921 : ℤ) : ℚ) / ((1080 : ℤ) : ℚ)))
    (fun n => if n = 0 then 0
      else |((1921 : ℤ) : ℚ) / ((1080 : ℤ) : ℚ) - ((1920 : ℤ) : ℚ) / (n : ℚ)|) = 1079
  unfold round_aspect
  have hfloor : ⌊(((1920 : ℤ) : ℚ)) / (((1921 : ℤ) : ℚ) / ((1080 : ℤ) : ℚ))⌋ = 1079 := by
    norm_num [Int.floor_eq_iff]
  have hceil : ⌈(((1920 : ℤ) : ℚ)) / (((1921 : ℤ) : ℚ) / ((1080 : ℤ) : ℚ))⌉ = 1080 := by
    norm_num [Int.ceil_eq_iff]
  rw [hfloor, hceil]
  rw [if_pos]
  · norm_num
  · show (if (1079 : ℤ) = 0 then (0 : ℚ)
        else |((1921 : ℤ) : ℚ) / ((1080 : ℤ) : ℚ) - ((1920 : ℤ) : ℚ) / ((1079 : ℤ) : ℚ)|)
      ≤ (if (1080 : ℤ) = 0 then (0 : ℚ)
        else |((1921 : ℤ) : ℚ) / ((1080 : ℤ) : ℚ) - ((1920 : ℤ) : ℚ) / ((1080 : ℤ) : ℚ)|)
    rw [if_neg (by norm_num), if_neg (by norm_num),
      abs_of_nonpos (by norm_num), abs_of_nonneg (by norm_num)]
    norm_num

/-- A nonempty dictionary is behind every successful lookup. -/
theorem dictGet_isEmpty_false {d : Dict} {k : String} {v : List Char}
    (h : dictGet d k = some v) : d.isEmpty = false := by
  cases d with
  | nil => simp [dictGet, List.lookup] at h
  | cons hd tl => rfl

/-! The claims. -/

/-- C7: for every POST to `/api/process-image` whose content type is not JSON,
the handler returns HTTP 415 with an `error` field, before any image decoding
or model call — the response is the same for every environment and every body,
so no decoding and no model call can have influenced it. -/
theorem C7_non_json_yields_415 (env : Env) (g : Except String (Option Dict)) :
    process_image env ⟨false, g⟩
      = ⟨415, false, none, some "Content-Type must be application/json"⟩ := rfl

/-- C6: for every JSON request body that is the empty object or is an object
lacking the `image` key, the handler returns HTTP 400 with body
`error: "No image data provided"`, and never HTTP 200. -/
theorem C6_missing_image_key_yields_400 (env : Env) (d : Dict)
    (h : d = [] ∨ dictGet d "image" = none) :
    process_image env ⟨true, .ok (some d)⟩
        = ⟨400, false, none, some "No image data provided"⟩ ∧
      (process_image env ⟨true, .ok (some d)⟩).status ≠ 200 := by
  have h400 : process_image env ⟨true, .ok (some d)⟩
      = ⟨400, false, none, some "No image data provided"⟩ := by
    rcases h with h | h
    · subst h; rfl
    · by_cases he : d.isEmpty
      · simp [process_image, notData, he]
      · simp [process_image, notData, he, h]
  exact ⟨h400, by rw [h400]; decide⟩

/-- C6 witness: the spec's scenario `POST {}`. -/
theorem C6_witness :
    process_image envPng100 ⟨true, .ok (some [])⟩
        = ⟨400, false, none, some "No image data provided"⟩ ∧
      (process_image envPng100 ⟨true, .ok (some [])⟩).status ≠ 200 :=
  C6_missing_image_key_yields_400 envPng100 [] (Or.inl rfl)

/-- C1: for every request whose image decodes successfully but whose model call
returns empty text, the handler returns HTTP 500 with an `error` field (the
`AIProcessingError` raised for the empty text is re-wrapped by the inner
`except` and reported by the outer `except AIProcessingError`), and never
HTTP 200 with `success: true`. -/
theorem C1_empty_model_text_yields_500 (env : Env) (d : Dict) (s : List Char)
    (image : PILImage) (himg : dictGet d "image" = some s)
    (hdec : process_base64_image env s = .ok image)
    (htext : env.modelCall image = .ok "") :
    process_image env ⟨true, .ok (some d)⟩
        = ⟨500, false, none, some "AI processing failed: No response generated"⟩ ∧
      ∀ t : String, process_image env ⟨true, .ok (some d)⟩ ≠ ⟨200, true, some t, none⟩ := by
  have h500 : process_image env ⟨true, .ok (some d)⟩
      = ⟨500, false, none, some "AI processing failed: No response generated"⟩ := by
    simp [process_image, notData, dictGet_isEmpty_false himg, himg, hdec, htext,
      String.isEmpty]
  refine ⟨h500, fun t => ?_⟩
  rw [h500]
  simp

/-- C1 witness: a concrete request with a decodable image and an empty model
answer. -/
theorem C1_witness :
    process_image envEmptyText ⟨true, .ok (some [("image", "QUJD".toList)])⟩
        = ⟨500, false, none, some "AI processing failed: No response generated"⟩ ∧
      ∀ t : String, process_image envEmptyText ⟨true, .ok (some [("image", "QUJD".toList)])⟩
        ≠ ⟨200, true, some t, none⟩ :=
  C1_empty_model_text_yields_500 envEmptyText _ _ ⟨"PNG", 100, 50⟩ rfl rfl rfl

/-- C2: for every input whose (stripped) payload is malformed base64, or
decodes to bytes that are not a recognized image, or parses to an image whose
format is outside the allowed set, `process_base64_image` returns an
`ImageProcessingError` — the only failure channel of the embedding, as the
function's own `except` block wraps every exception into it — and the handler
maps it to HTTP 400 carrying that error's message. -/
theorem C2_decode_failure_yields_error_and_400 (env : Env) (d : Dict) (s : List Char)
    (himg : dictGet d "image" = some s)
    (hfail : (∃ e, env.b64decode (stripDataUrl s) = .error e) ∨
      (∃ bs e, env.b64decode (stripDataUrl s) = .ok bs ∧ env.imageOpen bs = .error e) ∨
      (∃ bs image, env.b64decode (stripDataUrl s) = .ok bs ∧
        env.imageOpen bs = .ok image ∧ pyLower image.format ∉ allowedFormats)) :
    ∃ msg, process_base64_image env s = .error msg ∧
      process_image env ⟨true, .ok (some d)⟩ = ⟨400, false, none, some msg⟩ := by
  have hne := dictGet_isEmpty_false himg
  have herr : ∃ msg, process_base64_image env s = .error msg := by
    rcases hfail with ⟨e, he⟩ | ⟨bs, e, hbs, he⟩ | ⟨bs, image, hbs, hop, hfmt⟩
    · exact ⟨"Failed to process image: " ++ e, by
        unfold process_base64_image processPayload; rw [he]⟩
    · exact ⟨"Failed to process image: " ++ e, by
        unfold process_base64_image processPayload; simp only [hbs, he]⟩
    · exact ⟨"Failed to process image: Unsupported image format", by
        unfold process_base64_image processPayload; simp only [hbs, hop]
        rw [if_pos hfmt]⟩
  obtain ⟨msg, hmsg⟩ := herr
  refine ⟨msg, hmsg, ?_⟩
  simp [process_image, notData, hne, himg, hmsg]

/-- C2 witness: a recognized image of an unsupported format (BMP). -/
theorem C2_witness :
    ∃ msg, process_base64_image envBmp ("QUJD".toList) = .error msg ∧
      process_image envBmp ⟨true, .ok (some [("image", "QUJD".toList)])⟩
        = ⟨400, false, none, some msg⟩ :=
  C2_decode_failure_yields_error_and_400 envBmp _ _ rfl
    (Or.inr (Or.inr ⟨[65, 66, 67], ⟨"BMP", 10, 10⟩, rfl, rfl, by decide⟩))

/-- C5: for every valid base64-encoded JPEG, PNG or GIF whose dimensions are
both within the configured maximum, `process_base64_image` returns the very
image the bytes parse to — format and dimensions unchanged. -/
theorem C5_small_valid_image_unchanged (env : Env) (s : List Char) (bs : List Nat)
    (image : PILImage)
    (hdec : env.b64decode (stripDataUrl s) = .ok bs)
    (hopen : env.imageOpen bs = .ok image)
    (hfmt : pyLower image.format ∈ allowedFormats)
    (hw : image.width ≤ 1920) (hh : image.height ≤ 1080) :
    process_base64_image env s = .ok image := by
  unfold process_base64_image processPayload
  simp only [hdec, hopen]
  rw [if_neg (by simp [hfmt]), if_neg (by simp only [MAX_IMAGE_SIZE]; push_neg; omega)]

/-- C5 witness: a 100×50 PNG passes through unchanged. -/
theorem C5_witness :
    process_base64_image envPng100 ("QUJD".toList) = .ok ⟨"PNG", 100, 50⟩ :=
  C5_small_valid_image_unchanged envPng100 _ [65, 66, 67] ⟨"PNG", 100, 50⟩
    rfl rfl (by decide) (by decide) (by decide)

/-- C3 counterexample: the claim fails for the payload
`"base64,QUJD"`, whose own content contains `'base64,'`.  Decoding it directly
strips its leading `'base64,'` and succeeds on `"QUJD"`, but prefixing the
data-URL header makes the code keep only the empty text between the two
occurrences of `'base64,'`, so decoding fails — the two results differ. -/
theorem C3_counterexample_payload_containing_sep :
    process_base64_image envPng100 (dataUrlPng ++ "base64,QUJD".toList)
        = .error "Failed to process image: cannot identify image file" ∧
      process_base64_image envPng100 ("base64,QUJD".toList) = .ok ⟨"PNG", 100, 50⟩ ∧
      process_base64_image envPng100 (dataUrlPng ++ "base64,QUJD".toList)
        ≠ process_base64_image envPng100 ("base64,QUJD".toList) :=
  ⟨rfl, rfl, by decide⟩

/-- C3 (amended): for every payload that does not itself contain the substring
`'base64,'`, decoding `"data:image/png;base64," ++ p` yields the same result
as decoding `p`: the data-URL prefix is stripped before decoding. -/
theorem C3_amended_strip_for_clean_payload (env : Env) (p : List Char)
    (hp : splitFirst sepB64 p = none) :
    process_base64_image env (dataUrlPng ++ p) = process_base64_image env p := by
  have hsplit : dataUrlPng ++ p = "data:image/png;".toList ++ sepB64 ++ p := rfl
  have h1 : stripDataUrl (dataUrlPng ++ p) = p := by
    rw [hsplit]; exact stripDataUrl_single (by decide) hp
  have h2 : stripDataUrl p = p := stripDataUrl_of_no_sep hp
  unfold process_base64_image
  rw [h1, h2]

/-- C3 witness: the amended equation at the clean payload `"QUJD"`. -/
theorem C3_witness :
    process_base64_image envPng100 (dataUrlPng ++ "QUJD".toList)
      = process_base64_image envPng100 ("QUJD".toList) :=
  C3_amended_strip_for_clean_payload envPng100 _ (by decide)

/-- C10: prefix stripping is not restricted to a leading data-URL header: for
any input built around occurrences of `'base64,'`, everything up to and
including the first occurrence is discarded and exactly the text between the
first and (if any) second occurrence is what gets decoded — so a payload whose
own content contains `'base64,'` is truncated rather than decoded whole. -/
theorem C10_split_keeps_text_between_first_two_seps :
    (∀ (env : Env) (a m : List Char),
      splitFirst sepB64 a = none → splitFirst sepB64 m = none →
        process_base64_image env (a ++ sepB64 ++ m) = processPayload env m) ∧
    (∀ (env : Env) (a m c : List Char),
      splitFirst sepB64 a = none → splitFirst sepB64 m = none →
        process_base64_image env (a ++ sepB64 ++ m ++ sepB64 ++ c)
          = processPayload env m) := by
  constructor
  · intro env a m ha hm
    unfold process_base64_image
    rw [stripDataUrl_single ha hm]
  · intro env a m c ha hm
    unfold process_base64_image
    rw [stripDataUrl_double c ha hm]

/-- C10 witness: both shapes at concrete strings — with a second occurrence
present, only the text between the occurrences is decoded. -/
theorem C10_witness :
    process_base64_image envPng100 ("xx".toList ++ sepB64 ++ "QUJD".toList)
        = processPayload envPng100 ("QUJD".toList) ∧
      process_base64_image envPng100
          ("xx".toList ++ sepB64 ++ "QUJD".toList ++ sepB64 ++ "yy".toList)
        = processPayload envPng100 ("QUJD".toList) :=
  ⟨C10_split_keeps_text_between_first_two_seps.1 envPng100 _ _ (by decide) (by decide),
    C10_split_keeps_text_between_first_two_seps.2 envPng100 _ _ _ (by decide) (by decide)⟩

/-- C4 counterexample: on a 1921×1080 PNG the resize produces 1920×1079, and
1920·1080 ≠ 1921·1079, so the original aspect ratio 1921/1080 is not
preserved exactly (with integer pixel dimensions bounded by 1920×1080 no
result could preserve it, since 1921 and 1080 are coprime). -/
theorem C4_counterexample_aspect_not_exact :
    process_base64_image envWide ("QUJD".toList) = .ok ⟨"PNG", 1920, 1079⟩ ∧
      (1920 : ℤ) * 1080 ≠ 1921 * 1079 := by
  constructor
  · have h1 : process_base64_image envWide ("QUJD".toList)
        = .ok ⟨"PNG", (thumbnailSize 1920 1080 1921 1080).1,
            (thumbnailSize 1920 1080 1921 1080).2⟩ := rfl
    rw [h1, thumbnailSize_at_1921]
  · decide

/-- C4 (amended): for every valid image whose width exceeds 1920 or whose
height exceeds 1080, `process_base64_image` returns an image with the same
format, width at most 1920 and height at most 1080 (each at least 1); one
dimension equals the corresponding maximum and the other is the exact
aspect-preserving value rounded to an adjacent integer (its floor or its
ceiling, clamped to at least 1) — the aspect ratio is preserved only up to
this integer rounding, not exactly. -/
theorem C4_amended_resize_bounds (env : Env) (s : List Char) (bs : List Nat)
    (image : PILImage)
    (hdec : env.b64decode (stripDataUrl s) = .ok bs)
    (hopen : env.imageOpen bs = .ok image)
    (hfmt : pyLower image.format ∈ allowedFormats)
    (hw : 1 ≤ image.width) (hh : 1 ≤ image.height)
    (hbig : 1920 < image.width ∨ 1080 < image.height) :
    ∃ x y : ℤ, process_base64_image env s = .ok ⟨image.format, x, y⟩ ∧
      (1 ≤ x ∧ x ≤ 1920 ∧ 1 ≤ y ∧ y ≤ 1080) ∧
      ((y = 1080 ∧ (x = max ⌊(1080 : ℚ) * image.width / image.height⌋ 1 ∨
          x = max ⌈(1080 : ℚ) * image.width / image.height⌉ 1)) ∨
        (x = 1920 ∧ (y = max ⌊(1920 : ℚ) * image.height / image.width⌋ 1 ∨
          y = max ⌈(1920 : ℚ) * image.height / image.width⌉ 1))) := by
  obtain ⟨x, y, hxy, hbounds, hasp⟩ := thumbnailSize_spec hw hh hbig
  refine ⟨x, y, ?_, hbounds, hasp⟩
  unfold process_base64_image processPayload
  simp only [hdec, hopen]
  rw [if_neg (by simp [hfmt]),
    if_pos (show MAX_IMAGE_SIZE.1 < image.width ∨ MAX_IMAGE_SIZE.2 < image.height by
      simpa [MAX_IMAGE_SIZE] using hbig)]
  simp only [MAX_IMAGE_SIZE]
  rw [hxy]

/-- C4 witness: the spec's 3000×2000 scenario, resized within bounds. -/
theorem C4_witness :
    ∃ x y : ℤ, process_base64_image envBig ("QUJD".toList) = .ok ⟨"PNG", x, y⟩ ∧
      (1 ≤ x ∧ x ≤ 1920 ∧ 1 ≤ y ∧ y ≤ 1080) ∧
      ((y = 1080 ∧ (x = max ⌊(1080 : ℚ) * ((3000 : ℤ) : ℚ) / ((2000 : ℤ) : ℚ)⌋ 1 ∨
          x = max ⌈(1080 : ℚ) * ((3000 : ℤ) : ℚ) / ((2000 : ℤ) : ℚ)⌉ 1)) ∨
        (x = 1920 ∧ (y = max ⌊(1920 : ℚ) * ((2000 : ℤ) : ℚ) / ((3000 : ℤ) : ℚ)⌋ 1 ∨
          y = max ⌈(1920 : ℚ) * ((2000 : ℤ) : ℚ) / ((3000 : ℤ) : ℚ)⌉ 1))) :=
  C4_amended_resize_bounds envBig _ [65, 66, 67] ⟨"PNG", 3000, 2000⟩
    rfl rfl (by decide) (by decide) (by decide) (by decide)

/-- C8 counterexample: a generic exception raised inside the model-call block
(neither `ImageProcessingError` nor `AIProcessingError`) is re-raised as
`AIProcessingError("AI processing failed: " + str(e))` by the inner `except`
(line 217) and reported by the `except AIProcessingError` branch (lines
223–225) as HTTP 500 with the detailed message — not with the fixed generic
body, so internal detail leaks. -/
theorem C8_counterexample_model_exception_leaks_detail :
    process_image envModelRaises ⟨true, .ok (some [("image", "QUJD".toList)])⟩
        = ⟨500, false, none,
            some "AI processing failed: HTTPConnectionPool: read timed out"⟩ ∧
      "AI processing failed: HTTPConnectionPool: read timed out"
        ≠ "Internal server error" :=
  ⟨rfl, by decide⟩

/-- C8 (amended): an exception raised in the handler outside the model-call
block (e.g. `get_json` raising on a malformed body) is caught at the handler
boundary (lines 227–229) and reported as HTTP 500 with the fixed generic body
`error: "Internal server error"`; but an exception raised inside the
model-call block — though neither `ImageProcessingError` nor
`AIProcessingError` — is re-wrapped as `AIProcessingError` carrying its
message and reported as HTTP 500 with the detailed body
`error: "AI processing failed: <detail>"`, leaking the underlying detail. -/
theorem C8_amended_boundary_behavior :
    (∀ (env : Env) (e : String),
      process_image env ⟨true, .error e⟩
        = ⟨500, false, none, some "Internal server error"⟩) ∧
    (∀ (env : Env) (d : Dict) (s : List Char) (image : PILImage) (e : String),
      dictGet d "image" = some s → process_base64_image env s = .ok image →
      env.modelCall image = .error e →
      process_image env ⟨true, .ok (some d)⟩
        = ⟨500, false, none, some ("AI processing failed: " ++ e)⟩) := by
  constructor
  · intro env e
    rfl
  · intro env d s image e himg hdec hcall
    simp [process_image, notData, dictGet_isEmpty_false himg, himg, hdec, hcall]

/-- C8 witness: both amended clauses at concrete requests. -/
theorem C8_witness :
    process_image envModelRaises ⟨true, .error "Expecting value: line 1 column 1"⟩
        = ⟨500, false, none, some "Internal server error"⟩ ∧
      process_image envModelRaises ⟨true, .ok (some [("image", "QUJD".toList)])⟩
        = ⟨500, false, none,
            some ("AI processing failed: " ++ "HTTPConnectionPool: read timed out")⟩ :=
  ⟨C8_amended_boundary_behavior.1 envModelRaises _,
    C8_amended_boundary_behavior.2 envModelRaises _ _ ⟨"PNG", 100, 50⟩ _ rfl rfl rfl⟩

/-- C9: under the "100 per day" limit, once 100 requests from the same client
address have been admitted within the same day, the next request from that
address is rejected with HTTP 429 and body `error: "Rate limit exceeded"` —
for every environment and every request body, so before any image processing
can occur. -/
theorem C9_rate_limit_101st_rejected (env : Env) (req : Request)
    (history : List (String × Nat)) (addr : String) (day : Nat)
    (hlen : history.length = 100) (hall : ∀ p ∈ history, p = (addr, day)) :
    app_handle env history addr day req
      = ⟨429, false, none, some "Rate limit exceeded"⟩ := by
  have hfilter : history.filter (fun p => p.1 == addr && p.2 == day) = history := by
    apply List.filter_eq_self.mpr
    intro p hp
    rw [hall p hp]
    simp
  have hcond : rateLimitAllows RATE_LIMIT_COUNT history addr day = false := by
    unfold rateLimitAllows RATE_LIMIT_COUNT
    rw [hfilter, hlen]
    simp
  unfold app_handle
  rw [hcond]
  simp

/-- C9 witness: the 101st same-day request of a concrete client. -/
theorem C9_witness :
    app_handle envPng100 (List.replicate 100 ("203.0.113.7", 0)) "203.0.113.7" 0
        ⟨true, .ok (some [("image", "QUJD".toList)])⟩
      = ⟨429, false, none, some "Rate limit exceeded"⟩ :=
  C9_rate_limit_101st_rejected envPng100 _ _ _ _ (by simp)
    (fun p hp => List.eq_of_mem_replicate hp)

end VisualLearning

